import Mathlib

/-!
Verification of the TaskScheduler core: a shallow embedding of the per-task
two-channel debouncing state machine (`src/task_base.cpp`) and of the
scheduler's registry operations (`src/core/scheduler.cpp`, `scheduler.h`),
with theorems settling the specification's claims about them.

Machine integers (`int` counters, tolerances, repeats) are embedded as `Int`;
the C++ code never relies on wrap-around for these quantities.  User callbacks
(`plan`/`signal`/`act`) are virtual functions supplied by task subclasses; the
pure embedding records the calls a cycle makes as an emitted list, and a
second, exception-aware embedding (`processSignalChannelE` etc.) threads an
`Option String` exception through the same control flow to settle the
error-handling claim.
-/

namespace TaskScheduler

/-- Embedding of `TaskConfig` from `include/types.h`: the seven configuration fields
(there is no name field in the struct; the task name lives on `TaskBase`). -/
structure TaskConfig where
  intervalMs : Int
  sigTolerance : Int
  sigRepeat : Int
  allowSignal : Bool
  actTolerance : Int
  actRepeat : Int
  allowAction : Bool
  deriving Repr, DecidableEq

/-- Embedding of `PlanResult` from `include/types.h`. -/
structure PlanResult where
  wantSignal : Bool
  wantAct : Bool
  deriving Repr, DecidableEq

/-- The per-channel runtime state-machine fields of `TaskBase`
(`sigCounter_`, `isSignaled_`, `actCounter_`, `isActing_`). -/
structure TaskState where
  sigCounter : Int
  isSignaled : Bool
  actCounter : Int
  isActing : Bool
  deriving Repr, DecidableEq

/-- The runtime state a `TaskBase` is constructed with
(`sigCounter_(0), isSignaled_(false), actCounter_(0), isActing_(false)`). -/
def initialTaskState : TaskState :=
  { sigCounter := 0, isSignaled := false, actCounter := 0, isActing := false }

/-- A `TaskBase` object: identity, liveness flag, configuration and runtime
state (`include/task_base.h`).  The virtual callbacks are not part of the
object value; cycle functions take them (or their outcomes) as parameters. -/
structure TaskBase where
  name : String
  active : Bool
  config : TaskConfig
  state : TaskState
  deriving Repr, DecidableEq

/-- Constructor `TaskBase::TaskBase(name, intervalMs, sigTolerance, sigRepeat,
actTolerance, actRepeat)` from `task_base.cpp`: both gates start `true`,
the task starts active with zeroed counters. -/
def TaskBase.mk' (name : String) (intervalMs sigTolerance sigRepeat
    actTolerance actRepeat : Int) : TaskBase :=
  { name := name
    active := true
    config := { intervalMs := intervalMs, sigTolerance := sigTolerance,
                sigRepeat := sigRepeat, allowSignal := true,
                actTolerance := actTolerance, actRepeat := actRepeat,
                allowAction := true }
    state := initialTaskState }

/-- Embedding of `TaskBase::processSignalChannel(cfg, wantSignal)`, `task_base.cpp`
lines 46-92, as a pure transition: given the configuration snapshot, the
current state and the observed intent, it returns the state at the end of the
cycle together with the list of `signal(b)` calls the cycle made (in order).
The counter update happens first; then exactly one of the withdrawal /
activation / heartbeat / no-op branches runs. -/
def processSignalChannel (cfg : TaskConfig) (s : TaskState) (wantSignal : Bool) :
    TaskState × List Bool :=
  let c : Int := if wantSignal then s.sigCounter + 1 else 0
  let conditionMet : Bool := decide (c ≥ cfg.sigTolerance)
  let gateOpen : Bool := cfg.allowSignal
  if (!wantSignal || !gateOpen) && s.isSignaled then
    ({ s with isSignaled := false, sigCounter := 0 }, [false])
  else if conditionMet && gateOpen && !s.isSignaled then
    ({ s with sigCounter := c, isSignaled := true }, [true])
  else if conditionMet && gateOpen && s.isSignaled then
    if cfg.sigRepeat > 0 && c - cfg.sigTolerance ≥ cfg.sigRepeat then
      ({ s with sigCounter := cfg.sigTolerance }, [true])
    else
      ({ s with sigCounter := c }, [])
  else
    ({ s with sigCounter := c }, [])

/-- Embedding of `TaskBase::processActionChannel(cfg, wantAct)`, `task_base.cpp`
lines 94-132: structurally identical to the signal channel on its own
counter/state/config fields, emitting the `act(b)` calls. -/
def processActionChannel (cfg : TaskConfig) (s : TaskState) (wantAct : Bool) :
    TaskState × List Bool :=
  let c : Int := if wantAct then s.actCounter + 1 else 0
  let conditionMet : Bool := decide (c ≥ cfg.actTolerance)
  let gateOpen : Bool := cfg.allowAction
  if (!wantAct || !gateOpen) && s.isActing then
    ({ s with isActing := false, actCounter := 0 }, [false])
  else if conditionMet && gateOpen && !s.isActing then
    ({ s with actCounter := c, isActing := true }, [true])
  else if conditionMet && gateOpen && s.isActing then
    if cfg.actRepeat > 0 && c - cfg.actTolerance ≥ cfg.actRepeat then
      ({ s with actCounter := cfg.actTolerance }, [true])
    else
      ({ s with actCounter := c }, [])
  else
    ({ s with actCounter := c }, [])

/-- The local `conditionMet` predicate of `processSignalChannel` for the
cycle's observed intent: the post-update counter compared with the
tolerance (`task_base.cpp` line 56). -/
def sigConditionMet (cfg : TaskConfig) (s : TaskState) (wantSignal : Bool) : Bool :=
  decide ((if wantSignal then s.sigCounter + 1 else 0) ≥ cfg.sigTolerance)

/-- The local `conditionMet` predicate of `processActionChannel`
(`task_base.cpp` line 103). -/
def actConditionMet (cfg : TaskConfig) (s : TaskState) (wantAct : Bool) : Bool :=
  decide ((if wantAct then s.actCounter + 1 else 0) ≥ cfg.actTolerance)

/-- Embedding of `TaskBase::run()` (`task_base.cpp` lines 21-44) with the cycle's plan
outcome supplied: early-out when inactive, snapshot the configuration, then
run both channels.  Returns the task after the cycle plus the emitted
`signal` and `act` calls. -/
def TaskBase.runCycle (t : TaskBase) (intent : PlanResult) :
    TaskBase × List Bool × List Bool :=
  if !t.active then (t, [], [])
  else
    let cfg := t.config
    let (s1, sigCalls) := processSignalChannel cfg t.state intent.wantSignal
    let (s2, actCalls) := processActionChannel cfg s1 intent.wantAct
    ({ t with state := s2 }, sigCalls, actCalls)

/-- State of the signal channel after `k` cycles, starting from `s0`, when
cycle `k` (1-based) observes intent `want k`.  `iterateSignal cfg want s0 k`
is the state at the end of cycle `k`. -/
def iterateSignal (cfg : TaskConfig) (want : Nat → Bool) (s0 : TaskState) :
    Nat → TaskState
  | 0 => s0
  | k + 1 => (processSignalChannel cfg (iterateSignal cfg want s0 k) (want (k + 1))).1

/-- The `signal(b)` calls made during cycle `k` (1-based; cycle 0 makes
none). -/
def signalCallsInCycle (cfg : TaskConfig) (want : Nat → Bool) (s0 : TaskState) :
    Nat → List Bool
  | 0 => []
  | k + 1 => (processSignalChannel cfg (iterateSignal cfg want s0 k) (want (k + 1))).2

/-- The constant all-true intent stream. -/
def alwaysTrue : Nat → Bool := fun _ => true

/-! ## Configuration update (`task_base.cpp` lines 134-159)

`updateConfig` has two overloads: the flat-parameter one assigns each of the
seven fields of `config_` in turn, the struct one assigns `config_` wholesale.
Both run under `configMutex_` and touch nothing but `config_`. -/

/-- Embedding of `TaskBase::updateConfig(const TaskConfig&)` (`task_base.cpp` lines
151-154): replace the whole configuration struct. -/
def TaskBase.updateConfig (t : TaskBase) (config : TaskConfig) : TaskBase :=
  { t with config := config }

/-- Embedding of `TaskBase::updateConfig(int, int, int, bool, int, int, bool)`
(`task_base.cpp` lines 134-149): assign every field of `config_`
individually (which determines the whole seven-field struct). -/
def TaskBase.updateConfigFlat (t : TaskBase) (intervalMs sigTolerance
    sigRepeat : Int) (allowSignal : Bool) (actTolerance actRepeat : Int)
    (allowAction : Bool) : TaskBase :=
  { t with config :=
    { intervalMs := intervalMs, sigTolerance := sigTolerance,
      sigRepeat := sigRepeat, allowSignal := allowSignal,
      actTolerance := actTolerance, actRepeat := actRepeat,
      allowAction := allowAction } }

/-- Embedding of `TaskBase::getInterval()` (`task_base.cpp` lines 156-159). -/
def TaskBase.getInterval (t : TaskBase) : Int :=
  t.config.intervalMs

/-! ## Exception-aware embedding of a cycle

`plan`, `signal` and `act` are user callbacks that may throw
(`tests/test_error_handling.cpp`, `ThrowingTask`).  Neither `TaskBase::run`
nor `Scheduler::workerThreadFunc` contains a `try`/`catch`, so a throw
unwinds out of the enclosing calls, abandoning the rest of the cycle but
keeping the field writes already performed.  The embedding mirrors the
C++ control flow: callbacks yield `some e` when they throw exception `e`,
and each function returns the object state at the moment of unwinding
together with the escaping exception (`none` = normal return). -/

/-- Variant of `processSignalChannel` with a possibly-throwing `signal` callback.
The counter write at the top of the function has already happened when a
callback throws; the post-callback writes have not. -/
def processSignalChannelE (cfg : TaskConfig) (signal : Bool → Option String)
    (s : TaskState) (wantSignal : Bool) : TaskState × Option String :=
  let c : Int := if wantSignal then s.sigCounter + 1 else 0
  let s1 : TaskState := { s with sigCounter := c }
  let conditionMet : Bool := decide (c ≥ cfg.sigTolerance)
  let gateOpen : Bool := cfg.allowSignal
  if (!wantSignal || !gateOpen) && s1.isSignaled then
    match signal false with
    | some e => (s1, some e)
    | none => ({ s1 with isSignaled := false, sigCounter := 0 }, none)
  else if conditionMet && gateOpen && !s1.isSignaled then
    match signal true with
    | some e => (s1, some e)
    | none => ({ s1 with isSignaled := true }, none)
  else if conditionMet && gateOpen && s1.isSignaled then
    if cfg.sigRepeat > 0 && c - cfg.sigTolerance ≥ cfg.sigRepeat then
      match signal true with
      | some e => (s1, some e)
      | none => ({ s1 with sigCounter := cfg.sigTolerance }, none)
    else
      (s1, none)
  else
    (s1, none)

/-- Variant of `processActionChannel` with a possibly-throwing `act` callback. -/
def processActionChannelE (cfg : TaskConfig) (act : Bool → Option String)
    (s : TaskState) (wantAct : Bool) : TaskState × Option String :=
  let c : Int := if wantAct then s.actCounter + 1 else 0
  let s1 : TaskState := { s with actCounter := c }
  let conditionMet : Bool := decide (c ≥ cfg.actTolerance)
  let gateOpen : Bool := cfg.allowAction
  if (!wantAct || !gateOpen) && s1.isActing then
    match act false with
    | some e => (s1, some e)
    | none => ({ s1 with isActing := false, actCounter := 0 }, none)
  else if conditionMet && gateOpen && !s1.isActing then
    match act true with
    | some e => (s1, some e)
    | none => ({ s1 with isActing := true }, none)
  else if conditionMet && gateOpen && s1.isActing then
    if cfg.actRepeat > 0 && c - cfg.actTolerance ≥ cfg.actRepeat then
      match act true with
      | some e => (s1, some e)
      | none => ({ s1 with actCounter := cfg.actTolerance }, none)
    else
      (s1, none)
  else
    (s1, none)

/-- Embedding of `TaskBase::run()` with possibly-throwing callbacks, exactly as written in
`task_base.cpp` lines 21-44: inactive check, config snapshot, `plan()`, then
the two channels, with NO exception handler anywhere in the body.  The second
component is the exception escaping `run()`, if any. -/
def TaskBase.runE (t : TaskBase) (plan : Except String PlanResult)
    (signal : Bool → Option String) (act : Bool → Option String) :
    TaskBase × Option String :=
  if !t.active then (t, none)
  else
    let cfg := t.config
    match plan with
    | .error e => (t, some e)
    | .ok intent =>
      match processSignalChannelE cfg signal t.state intent.wantSignal with
      | (s1, some e) => ({ t with state := s1 }, some e)
      | (s1, none) =>
        match processActionChannelE cfg act s1 intent.wantAct with
        | (s2, oe) => ({ t with state := s2 }, oe)

/-- The body of one worker iteration for a popped task
(`scheduler.cpp` lines 201-213): check `isActive`, call `run()`, and if the
task is still active reschedule it (`rescheduleTask` = push
`(now + interval, task)` onto the timer queue).  `workerThreadFunc` wraps
this body in no `try`/`catch` either, so an exception escaping `run()`
also escapes the worker thread function (second component `some e`), and
the reschedule never happens. -/
def workerIterationE (t : TaskBase) (plan : Except String PlanResult)
    (signal : Bool → Option String) (act : Bool → Option String) (now : Int) :
    (TaskBase × List (Int × TaskBase)) × Option String :=
  if t.active then
    match t.runE plan signal act with
    | (t1, some e) => ((t1, []), some e)
    | (t1, none) =>
      if t1.active then ((t1, [(now + t1.getInterval, t1)]), none)
      else ((t1, []), none)
  else ((t, []), none)

/-! ## Scheduler registry model (`scheduler.h`, `scheduler.cpp`)

Tasks are owned through `shared_ptr`: the registry, the timer queue and the
worker queue alias the same heap objects.  The model keeps the heap explicit:
`store` is the list of allocated task objects and both the registry and the
timer queue refer to them by index.  The heap order of `timerQueue_` and the
thread machinery are irrelevant to the registry claims and are modelled as a
plain list of `(deadline, task-id)` entries. -/

/-- A `Scheduler`: task heap, name registry, timer queue and the `running_`
flag. -/
structure Scheduler where
  store : List TaskBase
  registry : List (String × Nat)
  timerQueue : List (Int × Nat)
  running : Bool
  deriving Repr, DecidableEq

/-- A freshly constructed scheduler (`Scheduler::Scheduler`): empty
registry and queues, `running_ = true`. -/
def Scheduler.init : Scheduler :=
  { store := [], registry := [], timerQueue := [], running := true }

/-- Apply `f` to the task object at index `id` of the store (the effect of
mutating through a `shared_ptr`). -/
def modifyStore (f : TaskBase → TaskBase) : List TaskBase → Nat → List TaskBase
  | [], _ => []
  | t :: ts, 0 => f t :: ts
  | t :: ts, n + 1 => t :: modifyStore f ts n

/-- Embedding of `Scheduler::scheduleTask(task)` (`scheduler.cpp` lines 110-126): null
check, then push `(now + task->getInterval(), task)` onto the timer queue.
`id` is the task's store index; the null case never reaches this model
because `createTask` filters it first. -/
def Scheduler.scheduleTask (sch : Scheduler) (id : Nat) (task : TaskBase)
    (now : Int) : Scheduler :=
  { sch with timerQueue := (now + task.getInterval, id) :: sch.timerQueue }

/-- Embedding of `Scheduler::createTask(name, factory)` (`scheduler.h` lines 121-141):
under the registry lock, fail if the name is present; call the factory and
fail if it returns null; otherwise allocate, register under `name` and
schedule with deadline `now + interval`.  `factory` is the value the factory
call produces (`none` = null `shared_ptr`). -/
def Scheduler.createTask (sch : Scheduler) (name : String)
    (factory : Option TaskBase) (now : Int) : Bool × Scheduler :=
  if (sch.registry.lookup name).isSome then
    (false, sch)
  else
    match factory with
    | none => (false, sch)
    | some task =>
      let id := sch.store.length
      let sch1 : Scheduler :=
        { sch with store := sch.store ++ [task],
                   registry := (name, id) :: sch.registry }
      (true, sch1.scheduleTask id task now)

/-- Embedding of `Scheduler::stopTask(name)` (`scheduler.cpp` lines 45-60): under the
registry lock, fail if absent; otherwise set the shared task object inactive
and erase the registry entry (lazy deletion: queue references are dropped when
popped). -/
def Scheduler.stopTask (sch : Scheduler) (name : String) : Bool × Scheduler :=
  match sch.registry.lookup name with
  | none => (false, sch)
  | some id =>
    (true,
     { sch with
       store := modifyStore (fun t => { t with active := false }) sch.store id,
       registry := sch.registry.eraseP (fun p => p.1 == name) })

/-- Embedding of `Scheduler::updateTask(name, const TaskConfig&)` (`scheduler.cpp` lines
82-92): under the registry lock, fail if absent; otherwise
`it->second->updateConfig(config)`. -/
def Scheduler.updateTask (sch : Scheduler) (name : String)
    (config : TaskConfig) : Bool × Scheduler :=
  match sch.registry.lookup name with
  | none => (false, sch)
  | some id =>
    (true,
     { sch with store := modifyStore (fun t => t.updateConfig config) sch.store id })

/-- Embedding of `Scheduler::updateTask(name, intervalMs, ..., allowAction)`
(`scheduler.cpp` lines 62-80): build a `TaskConfig` from the flat parameters
and delegate to the struct overload. -/
def Scheduler.updateTaskFlat (sch : Scheduler) (name : String)
    (intervalMs sigTolerance sigRepeat : Int) (allowSignal : Bool)
    (actTolerance actRepeat : Int) (allowAction : Bool) : Bool × Scheduler :=
  let config : TaskConfig :=
    { intervalMs := intervalMs, sigTolerance := sigTolerance,
      sigRepeat := sigRepeat, allowSignal := allowSignal,
      actTolerance := actTolerance, actRepeat := actRepeat,
      allowAction := allowAction }
  sch.updateTask name config

/-- Embedding of `Scheduler::getTask(name)` (`scheduler.cpp` lines 94-103): the shared
reference (store index) if registered, null otherwise. -/
def Scheduler.getTask (sch : Scheduler) (name : String) : Option Nat :=
  sch.registry.lookup name

/-- Embedding of `Scheduler::getTaskCount()` (`scheduler.cpp` lines 105-108). -/
def Scheduler.getTaskCount (sch : Scheduler) : Nat :=
  sch.registry.length

/-- Embedding of `Scheduler::shutdown()` (`scheduler.cpp` lines 23-43): flip `running_`
(early-out if it was already false), wake and join all threads.  Nothing else
in the state changes: in particular the registry is NOT cleared. -/
def Scheduler.shutdown (sch : Scheduler) : Scheduler :=
  if sch.running then { sch with running := false } else sch

/-- A callback that returns normally on every call (the behaviour of a
well-behaved `signal`/`act` implementation). -/
def noThrow : Bool → Option String := fun _ => none

/-- The `plan()` of `ThrowingTask` with `ThrowLocation::PLAN`
(`tests/test_error_handling.cpp`): it throws
`std::runtime_error("Exception in plan()")`. -/
def throwingPlan : Except String PlanResult :=
  .error "Exception in plan()"

/-- The concrete throwing task of `tests/test_error_handling.cpp`
(`TaskThrowsInPlan`): interval 50, both tolerances 2, no repeat, gates
open, freshly constructed (active). -/
def throwPlanTask : TaskBase := TaskBase.mk' "ThrowPlan" 50 2 0 2 0

/-! ## Step lemmas for the signal channel -/

/-- A cycle with `wantSignal = true`, gate open, channel inactive and the
incremented counter still below tolerance: no callback, counter increments. -/
theorem psc_step_below (cfg : TaskConfig) (s : TaskState)
    (hg : cfg.allowSignal = true) (hs : s.isSignaled = false)
    (hlt : s.sigCounter + 1 < cfg.sigTolerance) :
    processSignalChannel cfg s true = ({ s with sigCounter := s.sigCounter + 1 }, []) := by
  have hc : decide (s.sigCounter + 1 ≥ cfg.sigTolerance) = false :=
    decide_eq_false (by omega)
  simp [processSignalChannel, hg, hs, hc]

/-- A cycle with `wantSignal = true`, gate open, channel inactive and the
incremented counter reaching tolerance: activation, `signal(true)`. -/
theorem psc_step_activate (cfg : TaskConfig) (s : TaskState)
    (hg : cfg.allowSignal = true) (hs : s.isSignaled = false)
    (hge : cfg.sigTolerance ≤ s.sigCounter + 1) :
    processSignalChannel cfg s true =
      ({ s with sigCounter := s.sigCounter + 1, isSignaled := true }, [true]) := by
  have hc : decide (s.sigCounter + 1 ≥ cfg.sigTolerance) = true :=
    decide_eq_true hge
  simp [processSignalChannel, hg, hs, hc]

/-- A cycle with `wantSignal = true`, gate open, channel active, condition
met, but the heartbeat not due (repeat disabled or delta below repeat):
no callback, counter keeps climbing. -/
theorem psc_step_hold (cfg : TaskConfig) (s : TaskState)
    (hg : cfg.allowSignal = true) (hs : s.isSignaled = true)
    (hge : cfg.sigTolerance ≤ s.sigCounter + 1)
    (hno : cfg.sigRepeat ≤ 0 ∨ s.sigCounter + 1 - cfg.sigTolerance < cfg.sigRepeat) :
    processSignalChannel cfg s true = ({ s with sigCounter := s.sigCounter + 1 }, []) := by
  have hc : decide (s.sigCounter + 1 ≥ cfg.sigTolerance) = true :=
    decide_eq_true hge
  have hfire : (decide (cfg.sigRepeat > 0) &&
      decide (s.sigCounter + 1 - cfg.sigTolerance ≥ cfg.sigRepeat)) = false := by
    rcases hno with h | h
    · have : decide (cfg.sigRepeat > 0) = false := decide_eq_false (by omega)
      simp [this]
    · have : decide (s.sigCounter + 1 - cfg.sigTolerance ≥ cfg.sigRepeat) = false :=
        decide_eq_false (by omega)
      simp [this]
  simp [processSignalChannel, hg, hs, hc, hfire]

/-- A cycle with `wantSignal = true`, gate open, channel active and the
heartbeat due: `signal(true)` re-fires and the counter snaps back to the
tolerance. -/
theorem psc_step_fire (cfg : TaskConfig) (s : TaskState)
    (hg : cfg.allowSignal = true) (hs : s.isSignaled = true)
    (hge : cfg.sigTolerance ≤ s.sigCounter + 1)
    (hR : 0 < cfg.sigRepeat)
    (hdue : cfg.sigRepeat ≤ s.sigCounter + 1 - cfg.sigTolerance) :
    processSignalChannel cfg s true = ({ s with sigCounter := cfg.sigTolerance }, [true]) := by
  have hc : decide (s.sigCounter + 1 ≥ cfg.sigTolerance) = true :=
    decide_eq_true hge
  have h1 : decide (cfg.sigRepeat > 0) = true := decide_eq_true hR
  have h2 : decide (s.sigCounter + 1 - cfg.sigTolerance ≥ cfg.sigRepeat) = true :=
    decide_eq_true hdue
  simp [processSignalChannel, hg, hs, hc, h1, h2]

/-- Withdrawal by gate closure: any cycle whose snapshot has
`allowSignal = false` while the channel is active calls `signal(false)`
exactly once, clears `isSignaled` and resets the counter — whatever the
observed intent was. -/
theorem psc_step_withdraw_gate (cfg : TaskConfig) (s : TaskState) (want : Bool)
    (hg : cfg.allowSignal = false) (hs : s.isSignaled = true) :
    processSignalChannel cfg s want =
      ({ s with isSignaled := false, sigCounter := 0 }, [false]) := by
  simp [processSignalChannel, hg, hs]

/-- Withdrawal by falling intent: a `wantSignal = false` cycle while the
channel is active calls `signal(false)` exactly once, clears `isSignaled`
and resets the counter — whatever the gate is. -/
theorem psc_step_withdraw_want (cfg : TaskConfig) (s : TaskState)
    (hs : s.isSignaled = true) :
    processSignalChannel cfg s false =
      ({ s with isSignaled := false, sigCounter := 0 }, [false]) := by
  simp [processSignalChannel, hs]

/-! ## Iteration invariants under constant true intent -/

/-- Debounce phase: starting from a fresh channel (`sigCounter = 0`,
`isSignaled = false`) with gate open and intent held true, the first
`k < N` cycles just climb the counter, with no callback. -/
theorem iterateSignal_below (cfg : TaskConfig) (N : Nat) (a : Int) (b : Bool)
    (htol : cfg.sigTolerance = (N : Int)) (hg : cfg.allowSignal = true) :
    ∀ k : Nat, k < N →
      iterateSignal cfg alwaysTrue ⟨0, false, a, b⟩ k = ⟨(k : Int), false, a, b⟩ := by
  intro k
  induction k with
  | zero => intro _; rfl
  | succ k ih =>
    intro hk
    have hstate := ih (by omega)
    show (processSignalChannel cfg (iterateSignal cfg alwaysTrue ⟨0, false, a, b⟩ k)
        (alwaysTrue (k + 1))).1 = _
    rw [hstate]
    rw [show alwaysTrue (k + 1) = true from rfl]
    rw [psc_step_below cfg ⟨(k : Int), false, a, b⟩ hg rfl
      (by rw [htol]; push_cast; omega)]
    simp

/-- No callback fires during the debounce phase. -/
theorem signalCalls_below (cfg : TaskConfig) (N : Nat) (a : Int) (b : Bool)
    (htol : cfg.sigTolerance = (N : Int)) (hg : cfg.allowSignal = true) :
    ∀ k : Nat, k + 1 < N →
      signalCallsInCycle cfg alwaysTrue ⟨0, false, a, b⟩ (k + 1) = [] := by
  intro k hk
  show (processSignalChannel cfg (iterateSignal cfg alwaysTrue ⟨0, false, a, b⟩ k)
      (alwaysTrue (k + 1))).2 = _
  rw [iterateSignal_below cfg N a b htol hg k (by omega)]
  rw [show alwaysTrue (k + 1) = true from rfl]
  rw [psc_step_below cfg ⟨(k : Int), false, a, b⟩ hg rfl
    (by rw [htol]; push_cast; omega)]

/-- Activation: with tolerance `N`, gate open and intent held true from a
fresh channel, cycle `max N 1` performs the activation transition —
`signal(true)` is called and the state becomes signaled with the counter at
`max N 1`. -/
theorem iterateSignal_activation (cfg : TaskConfig) (N : Nat) (a : Int) (b : Bool)
    (htol : cfg.sigTolerance = (N : Int)) (hg : cfg.allowSignal = true) :
    iterateSignal cfg alwaysTrue ⟨0, false, a, b⟩ (max N 1) =
        ⟨((max N 1 : Nat) : Int), true, a, b⟩
      ∧ signalCallsInCycle cfg alwaysTrue ⟨0, false, a, b⟩ (max N 1) = [true] := by
  rcases Nat.eq_zero_or_pos N with hN | hN
  · subst hN
    have hstep := psc_step_activate cfg ⟨0, false, a, b⟩ hg rfl
      (by simp [htol])
    constructor
    · show (processSignalChannel cfg (iterateSignal cfg alwaysTrue ⟨0, false, a, b⟩ 0)
          (alwaysTrue 1)).1 = _
      rw [show iterateSignal cfg alwaysTrue ⟨0, false, a, b⟩ 0 = ⟨0, false, a, b⟩ from rfl]
      rw [show alwaysTrue 1 = true from rfl, hstep]
      simp
    · show (processSignalChannel cfg (iterateSignal cfg alwaysTrue ⟨0, false, a, b⟩ 0)
          (alwaysTrue 1)).2 = _
      rw [show iterateSignal cfg alwaysTrue ⟨0, false, a, b⟩ 0 = ⟨0, false, a, b⟩ from rfl]
      rw [show alwaysTrue 1 = true from rfl, hstep]
  · have hmax : max N 1 = N := by omega
    obtain ⟨k, hkN⟩ : ∃ k, N = k + 1 := ⟨N - 1, by omega⟩
    have hprev := iterateSignal_below cfg N a b htol hg k (by omega)
    have hstep := psc_step_activate cfg ⟨(k : Int), false, a, b⟩ hg rfl
      (by rw [htol]; push_cast; omega)
    rw [hmax, hkN]
    constructor
    · show (processSignalChannel cfg (iterateSignal cfg alwaysTrue ⟨0, false, a, b⟩ k)
          (alwaysTrue (k + 1))).1 = _
      rw [hprev, show alwaysTrue (k + 1) = true from rfl, hstep]
      simp
    · show (processSignalChannel cfg (iterateSignal cfg alwaysTrue ⟨0, false, a, b⟩ k)
          (alwaysTrue (k + 1))).2 = _
      rw [hprev, show alwaysTrue (k + 1) = true from rfl, hstep]

/-- Steady state with heartbeat disabled (`sigRepeat = 0`): after activation
the channel stays signaled, the counter keeps climbing, and no further
callback ever fires. -/
theorem iterateSignal_steady_norepeat (cfg : TaskConfig) (N : Nat) (a : Int) (b : Bool)
    (htol : cfg.sigTolerance = (N : Int)) (hrep : cfg.sigRepeat = 0)
    (hg : cfg.allowSignal = true) :
    ∀ j : Nat,
      iterateSignal cfg alwaysTrue ⟨0, false, a, b⟩ (max N 1 + j) =
          ⟨((max N 1 + j : Nat) : Int), true, a, b⟩
        ∧ (0 < j → signalCallsInCycle cfg alwaysTrue ⟨0, false, a, b⟩ (max N 1 + j) = []) := by
  intro j
  induction j with
  | zero =>
    refine ⟨?_, by omega⟩
    simpa using (iterateSignal_activation cfg N a b htol hg).1
  | succ j ih =>
    have hstep := psc_step_hold cfg ⟨((max N 1 + j : Nat) : Int), true, a, b⟩ hg rfl
      (by rw [htol]; push_cast; omega) (Or.inl (by rw [hrep]))
    have hiter : iterateSignal cfg alwaysTrue ⟨0, false, a, b⟩ (max N 1 + (j + 1)) =
        (processSignalChannel cfg (iterateSignal cfg alwaysTrue ⟨0, false, a, b⟩ (max N 1 + j))
          (alwaysTrue (max N 1 + j + 1))).1 := by
      rw [show max N 1 + (j + 1) = (max N 1 + j) + 1 from by omega]
      rfl
    have hcalls : signalCallsInCycle cfg alwaysTrue ⟨0, false, a, b⟩ (max N 1 + (j + 1)) =
        (processSignalChannel cfg (iterateSignal cfg alwaysTrue ⟨0, false, a, b⟩ (max N 1 + j))
          (alwaysTrue (max N 1 + j + 1))).2 := by
      rw [show max N 1 + (j + 1) = (max N 1 + j) + 1 from by omega]
      rfl
    constructor
    · rw [hiter, ih.1, show alwaysTrue (max N 1 + j + 1) = true from rfl, hstep]
      simp
      ring
    · intro _
      rw [hcalls, ih.1, show alwaysTrue (max N 1 + j + 1) = true from rfl, hstep]

/-- How `% R` advances with the argument. -/
theorem mod_succ_eq (j R : Nat) (hR : 1 ≤ R) :
    (j + 1) % R = if j % R + 1 = R then 0 else j % R + 1 := by
  rcases Nat.lt_or_ge R 2 with h2 | h2
  · have hR1 : R = 1 := by omega
    subst hR1
    simp [Nat.mod_one]
  · have h1R : 1 % R = 1 := Nat.mod_eq_of_lt (by omega)
    have hlt : j % R < R := Nat.mod_lt j (by omega)
    have hrw : (j + 1) % R = (j % R + 1) % R := by
      rw [Nat.add_mod, h1R]
    by_cases hc : j % R + 1 = R
    · rw [hrw, hc, Nat.mod_self]
      simp
    · rw [hrw, Nat.mod_eq_of_lt (by omega), if_neg hc]

/-- Steady state with heartbeat `R ≥ 1` and tolerance `N ≥ 1`: from cycle `N`
on, the channel stays signaled, the counter runs through
`N, N+1, …, N+R-1` and snaps back, and `signal(true)` re-fires exactly on
the cycles `N + j` with `j % R = 0`. -/
theorem iterateSignal_steady_repeat (cfg : TaskConfig) (N R : Nat) (a : Int) (b : Bool)
    (hN : 1 ≤ N) (hR : 1 ≤ R)
    (htol : cfg.sigTolerance = (N : Int)) (hrep : cfg.sigRepeat = (R : Int))
    (hg : cfg.allowSignal = true) :
    ∀ j : Nat,
      iterateSignal cfg alwaysTrue ⟨0, false, a, b⟩ (N + j) =
          ⟨(N : Int) + ((j % R : Nat) : Int), true, a, b⟩
        ∧ signalCallsInCycle cfg alwaysTrue ⟨0, false, a, b⟩ (N + j) =
            (if j % R = 0 then [true] else []) := by
  intro j
  induction j with
  | zero =>
    have hmax : max N 1 = N := by omega
    have hact := iterateSignal_activation cfg N a b htol hg
    rw [hmax] at hact
    refine ⟨?_, ?_⟩
    · rw [show N + 0 = N from rfl, hact.1]
      simp [Nat.zero_mod]
    · rw [show N + 0 = N from rfl, hact.2]
      simp [Nat.zero_mod]
  | succ j ih =>
    have hiter : iterateSignal cfg alwaysTrue ⟨0, false, a, b⟩ (N + (j + 1)) =
        (processSignalChannel cfg (iterateSignal cfg alwaysTrue ⟨0, false, a, b⟩ (N + j))
          (alwaysTrue (N + j + 1))).1 := by
      rw [show N + (j + 1) = (N + j) + 1 from by omega]
      rfl
    have hcalls : signalCallsInCycle cfg alwaysTrue ⟨0, false, a, b⟩ (N + (j + 1)) =
        (processSignalChannel cfg (iterateSignal cfg alwaysTrue ⟨0, false, a, b⟩ (N + j))
          (alwaysTrue (N + j + 1))).2 := by
      rw [show N + (j + 1) = (N + j) + 1 from by omega]
      rfl
    have hmod := mod_succ_eq j R hR
    have hmodlt : j % R < R := Nat.mod_lt j (by omega)
    by_cases hdue : j % R + 1 = R
    · -- heartbeat fires: snap back to N, `(j+1) % R = 0`
      have hstep := psc_step_fire cfg ⟨(N : Int) + ((j % R : Nat) : Int), true, a, b⟩
        hg rfl
        (by rw [htol]; simp; omega)
        (by rw [hrep]; omega)
        (by rw [hrep, htol]; simp; omega)
      have hmod0 : (j + 1) % R = 0 := by rw [hmod, if_pos hdue]
      refine ⟨?_, ?_⟩
      · rw [hiter, ih.1, show alwaysTrue (N + j + 1) = true from rfl, hstep]
        simp [hmod0, htol]
      · rw [hcalls, ih.1, show alwaysTrue (N + j + 1) = true from rfl, hstep]
        simp [hmod0]
    · -- heartbeat not yet due: counter climbs, `(j+1) % R = j % R + 1`
      have hstep := psc_step_hold cfg ⟨(N : Int) + ((j % R : Nat) : Int), true, a, b⟩
        hg rfl
        (by rw [htol]; simp; omega)
        (Or.inr (by rw [hrep, htol]; simp; omega))
      have hmod1 : (j + 1) % R = j % R + 1 := by rw [hmod, if_neg hdue]
      refine ⟨?_, ?_⟩
      · rw [hiter, ih.1, show alwaysTrue (N + j + 1) = true from rfl, hstep]
        simp [hmod1]
        ring
      · rw [hcalls, ih.1, show alwaysTrue (N + j + 1) = true from rfl, hstep]
        have : ¬ ((j + 1) % R = 0) := by omega
        simp [this]

/-! ## Channel frame lemmas -/

/-- The action channel never touches the signal channel's fields. -/
theorem processActionChannel_sig_frame (cfg : TaskConfig) (s : TaskState) (w : Bool) :
    (processActionChannel cfg s w).1.sigCounter = s.sigCounter
  ∧ (processActionChannel cfg s w).1.isSignaled = s.isSignaled := by
  simp only [processActionChannel]
  repeat' split
  all_goals exact ⟨rfl, rfl⟩

/-- The signal channel never touches the action channel's fields. -/
theorem processSignalChannel_act_frame (cfg : TaskConfig) (s : TaskState) (w : Bool) :
    (processSignalChannel cfg s w).1.actCounter = s.actCounter
  ∧ (processSignalChannel cfg s w).1.isActing = s.isActing := by
  simp only [processSignalChannel]
  repeat' split
  all_goals exact ⟨rfl, rfl⟩

/-! ## The claims -/

/-- C1: the claim says a callback exception is caught at the cycle's outer
boundary and the task is rescheduled normally.  The code has no handler:
evaluating the embedded `run()` and worker-iteration body on the repository's
own failing input (`ThrowingTask` with `ThrowLocation::PLAN`, the
`TaskThrowsInPlan` test) shows the exception escaping `run()` and the worker
loop body, with no reschedule entry produced — contradicting the claim, the
spec's §7 and the expectations of `test_error_handling.cpp`. -/
theorem claim_C1_exception_escapes :
    (throwPlanTask.runE throwingPlan noThrow noThrow).2 = some "Exception in plan()"
  ∧ (workerIterationE throwPlanTask throwingPlan noThrow noThrow 0).2 =
      some "Exception in plan()"
  ∧ (workerIterationE throwPlanTask throwingPlan noThrow noThrow 0).1.2 = [] := by
  exact ⟨rfl, rfl, rfl⟩

/-- C3, as stated, is false: with `sigTolerance = 0` (a configuration the
spec admits: tolerances are non-negative), a cycle that observes
`wantSignal = false` resets the counter to `0`, yet `conditionMet`
(`0 ≥ 0`) is true and the activation transition fires `signal(true)` from an
unsignaled state on that very cycle. -/
theorem claim_C3_counterexample :
    sigConditionMet ⟨100, 0, 0, true, 0, 0, true⟩ initialTaskState false = true
  ∧ initialTaskState.isSignaled = false
  ∧ (processSignalChannel ⟨100, 0, 0, true, 0, 0, true⟩ initialTaskState false).2 = [true]
  ∧ (processSignalChannel ⟨100, 0, 0, true, 0, 0, true⟩ initialTaskState false).1.isSignaled
      = true := by
  exact ⟨rfl, rfl, rfl, rfl⟩

/-- C3 (amended): for every configuration with positive tolerances, a cycle
that observes a false intent has `conditionMet = false` on that cycle, and no
`signal(true)`/`act(true)` call — in particular no activation transition —
can happen on it. -/
theorem claim_C3_amended (cfg : TaskConfig) (s : TaskState)
    (hsig : 1 ≤ cfg.sigTolerance) (hact : 1 ≤ cfg.actTolerance) :
    sigConditionMet cfg s false = false
  ∧ true ∉ (processSignalChannel cfg s false).2
  ∧ actConditionMet cfg s false = false
  ∧ true ∉ (processActionChannel cfg s false).2 := by
  have hcs : decide ((0 : Int) ≥ cfg.sigTolerance) = false := decide_eq_false (by omega)
  have hca : decide ((0 : Int) ≥ cfg.actTolerance) = false := decide_eq_false (by omega)
  refine ⟨?_, ?_, ?_, ?_⟩
  · simpa [sigConditionMet] using hcs
  · by_cases hs : s.isSignaled <;> simp [processSignalChannel, hs, hcs]
  · simpa [actConditionMet] using hca
  · by_cases hs : s.isActing <;> simp [processActionChannel, hs, hca]

/-- Witness for the amended C3 at a concrete input. -/
theorem claim_C3_amended_witness :
    sigConditionMet ⟨100, 1, 0, true, 1, 0, true⟩ initialTaskState false = false
  ∧ true ∉ (processSignalChannel ⟨100, 1, 0, true, 1, 0, true⟩ initialTaskState false).2 := by
  have h := claim_C3_amended ⟨100, 1, 0, true, 1, 0, true⟩ initialTaskState
    (by decide) (by decide)
  exact ⟨h.1, h.2.1⟩

/-- C7: a cycle that observes `wantSignal = false` ends with `sigCounter = 0`
and a cycle that observes `wantAct = false` ends with `actCounter = 0`,
whatever configuration, prior state and branch applies — both at channel
level and through a full `run()` cycle of an active task. -/
theorem claim_C7_false_resets_counter (cfg : TaskConfig) (s : TaskState)
    (t : TaskBase) (w w2 : Bool) :
    (processSignalChannel cfg s false).1.sigCounter = 0
  ∧ (processActionChannel cfg s false).1.actCounter = 0
  ∧ (t.active = true → (t.runCycle ⟨false, w⟩).1.state.sigCounter = 0)
  ∧ (t.active = true → (t.runCycle ⟨w2, false⟩).1.state.actCounter = 0) := by
  have hsig : ∀ cfg2 s2, (processSignalChannel cfg2 s2 false).1.sigCounter = 0 := by
    intro cfg2 s2
    simp only [processSignalChannel]
    repeat' split
    all_goals simp_all
  have hact : ∀ cfg2 s2, (processActionChannel cfg2 s2 false).1.actCounter = 0 := by
    intro cfg2 s2
    simp only [processActionChannel]
    repeat' split
    all_goals simp_all
  refine ⟨hsig cfg s, hact cfg s, ?_, ?_⟩
  · intro ht
    simp only [TaskBase.runCycle, ht]
    simp only [Bool.not_true, Bool.false_eq_true, if_false]
    exact (processActionChannel_sig_frame t.config
        (processSignalChannel t.config t.state false).1 w).1.trans
      (hsig t.config t.state)
  · intro ht
    simp only [TaskBase.runCycle, ht]
    simp only [Bool.not_true, Bool.false_eq_true, if_false]
    exact hact t.config (processSignalChannel t.config t.state w2).1


/-- Witness for C7 at a concrete input. -/
theorem claim_C7_witness :
    (processSignalChannel ⟨50, 3, 0, true, 3, 0, true⟩ ⟨2, false, 1, true⟩ false).1.sigCounter = 0
  ∧ (throwPlanTask.runCycle ⟨false, true⟩).1.state.sigCounter = 0 := by
  have h := claim_C7_false_resets_counter ⟨50, 3, 0, true, 3, 0, true⟩
    ⟨2, false, 1, true⟩ throwPlanTask true true
  exact ⟨h.1, h.2.2.1 rfl⟩

/-- C4: starting fresh with tolerance `N`, gate open, `sigRepeat = 0` and
intent held true from cycle 1 on, `signal(true)` is called exactly at cycle
`N` (cycle 1 when `N = 0`), on no earlier cycle, and never again on later
cycles. -/
theorem claim_C4_first_activation (cfg : TaskConfig) (N : Nat) (a : Int) (b : Bool)
    (htol : cfg.sigTolerance = (N : Int)) (hrep : cfg.sigRepeat = 0)
    (hg : cfg.allowSignal = true) :
    signalCallsInCycle cfg alwaysTrue ⟨0, false, a, b⟩ (max N 1) = [true]
  ∧ (∀ k, 1 ≤ k → k < max N 1 →
      signalCallsInCycle cfg alwaysTrue ⟨0, false, a, b⟩ k = [])
  ∧ (∀ k, max N 1 < k →
      signalCallsInCycle cfg alwaysTrue ⟨0, false, a, b⟩ k = []) := by
  refine ⟨(iterateSignal_activation cfg N a b htol hg).2, ?_, ?_⟩
  · intro k hk1 hkmax
    obtain ⟨j, rfl⟩ : ∃ j, k = j + 1 := ⟨k - 1, by omega⟩
    exact signalCalls_below cfg N a b htol hg j (by omega)
  · intro k hk
    obtain ⟨j, rfl⟩ : ∃ j, k = max N 1 + j := ⟨k - max N 1, by omega⟩
    exact (iterateSignal_steady_norepeat cfg N a b htol hrep hg j).2 (by omega)

/-- Witness for C4 (tolerance 2, no repeat): `signal(true)` fires at cycle 2,
not at cycle 1, and not at cycle 7. -/
theorem claim_C4_witness :
    signalCallsInCycle ⟨50, 2, 0, true, 2, 0, true⟩ alwaysTrue ⟨0, false, 0, false⟩ 2 = [true]
  ∧ signalCallsInCycle ⟨50, 2, 0, true, 2, 0, true⟩ alwaysTrue ⟨0, false, 0, false⟩ 1 = []
  ∧ signalCallsInCycle ⟨50, 2, 0, true, 2, 0, true⟩ alwaysTrue ⟨0, false, 0, false⟩ 7 = [] := by
  have h := claim_C4_first_activation ⟨50, 2, 0, true, 2, 0, true⟩ 2 0 false rfl rfl rfl
  exact ⟨h.1, h.2.1 1 (by decide) (by decide), h.2.2 7 (by decide)⟩

/-- C5: with tolerance `N ≥ 1`, heartbeat `R ≥ 1`, gate open and intent held
true on every cycle, `signal(true)` is called exactly on cycles
`N, N + R, N + 2R, …` — each heartbeat snapping the counter back to `N` —
and `signal(false)` is never called. -/
theorem claim_C5_heartbeat_schedule (cfg : TaskConfig) (N R : Nat) (a : Int) (b : Bool)
    (hN : 1 ≤ N) (hR : 1 ≤ R)
    (htol : cfg.sigTolerance = (N : Int)) (hrep : cfg.sigRepeat = (R : Int))
    (hg : cfg.allowSignal = true) :
    (∀ k : Nat, 1 ≤ k → k < N →
      signalCallsInCycle cfg alwaysTrue ⟨0, false, a, b⟩ k = [])
  ∧ (∀ j : Nat,
        signalCallsInCycle cfg alwaysTrue ⟨0, false, a, b⟩ (N + j * R) = [true]
      ∧ (iterateSignal cfg alwaysTrue ⟨0, false, a, b⟩ (N + j * R)).sigCounter = (N : Int))
  ∧ (∀ k : Nat, N ≤ k → (∀ j : Nat, k ≠ N + j * R) →
      signalCallsInCycle cfg alwaysTrue ⟨0, false, a, b⟩ k = [])
  ∧ (∀ k : Nat, false ∉ signalCallsInCycle cfg alwaysTrue ⟨0, false, a, b⟩ k) := by
  have hsteady := iterateSignal_steady_repeat cfg N R a b hN hR htol hrep hg
  refine ⟨?_, ?_, ?_, ?_⟩
  · intro k hk1 hkN
    obtain ⟨j, rfl⟩ : ∃ j, k = j + 1 := ⟨k - 1, by omega⟩
    exact signalCalls_below cfg N a b htol hg j (by omega)
  · intro j
    have h := hsteady (j * R)
    have hmod : (j * R) % R = 0 := Nat.mul_mod_left j R
    refine ⟨?_, ?_⟩
    · rw [h.2, if_pos hmod]
    · rw [h.1]
      simp [hmod]
  · intro k hk hknot
    obtain ⟨j, rfl⟩ : ∃ j, k = N + j := ⟨k - N, by omega⟩
    have h := hsteady j
    have hmod : j % R ≠ 0 := by
      intro h0
      obtain ⟨m, hm⟩ := Nat.dvd_of_mod_eq_zero h0
      exact hknot m (by rw [hm, Nat.mul_comm])
    rw [h.2, if_neg hmod]
  · intro k
    rcases Nat.lt_or_ge k N with hkN | hkN
    · rcases Nat.eq_zero_or_pos k with hk0 | hk0
      · subst hk0
        simp [signalCallsInCycle]
      · obtain ⟨j, rfl⟩ : ∃ j, k = j + 1 := ⟨k - 1, by omega⟩
        rw [signalCalls_below cfg N a b htol hg j (by omega)]
        simp
    · obtain ⟨j, rfl⟩ : ∃ j, k = N + j := ⟨k - N, by omega⟩
      rw [(hsteady j).2]
      by_cases hmod : j % R = 0 <;> simp [hmod]

/-- Witness for C5 (tolerance 2, repeat 3): nothing during the debounce
cycle 1, `signal(true)` at cycle 5 with snap-back to the tolerance, nothing
at cycle 4, never `signal(false)` at cycle 3. -/
theorem claim_C5_witness :
    signalCallsInCycle ⟨50, 2, 3, true, 2, 0, true⟩ alwaysTrue ⟨0, false, 0, false⟩ 1 = []
  ∧ signalCallsInCycle ⟨50, 2, 3, true, 2, 0, true⟩ alwaysTrue ⟨0, false, 0, false⟩ 5 = [true]
  ∧ (iterateSignal ⟨50, 2, 3, true, 2, 0, true⟩ alwaysTrue ⟨0, false, 0, false⟩ 5).sigCounter = 2
  ∧ signalCallsInCycle ⟨50, 2, 3, true, 2, 0, true⟩ alwaysTrue ⟨0, false, 0, false⟩ 4 = []
  ∧ false ∉ signalCallsInCycle ⟨50, 2, 3, true, 2, 0, true⟩ alwaysTrue ⟨0, false, 0, false⟩ 3 := by
  have h := claim_C5_heartbeat_schedule ⟨50, 2, 3, true, 2, 0, true⟩ 2 3 0 false
    (by decide) (by decide) rfl rfl rfl
  refine ⟨h.1 1 (by decide) (by decide), ?_, ?_, ?_, h.2.2.2 3⟩
  · have := (h.2.1 1).1
    simpa using this
  · have := (h.2.1 1).2
    simpa using this
  · exact h.2.2.1 4 (by decide) (by intro j; omega)

/-- C6: a cycle whose configuration snapshot has `allowSignal = false` while
`isSignaled = true` calls `signal(false)` exactly once, clears `isSignaled`
and resets `sigCounter` to 0; from that reset state, once the gate is open
again with intent held true, `signal(true)` does not fire before a fresh run
of `sigTolerance` consecutive true cycles has accumulated, and fires exactly
when it has (cycle `max N 1` for tolerance `N`). -/
theorem claim_C6_gate_withdrawal (cfg cfg2 : TaskConfig) (s : TaskState)
    (want : Bool) (N : Nat)
    (hg : cfg.allowSignal = false) (hs : s.isSignaled = true)
    (htol2 : cfg2.sigTolerance = (N : Int)) (hg2 : cfg2.allowSignal = true) :
    processSignalChannel cfg s want =
        ({ s with isSignaled := false, sigCounter := 0 }, [false])
  ∧ (∀ k, 1 ≤ k → k < max N 1 →
      signalCallsInCycle cfg2 alwaysTrue ⟨0, false, s.actCounter, s.isActing⟩ k = [])
  ∧ signalCallsInCycle cfg2 alwaysTrue ⟨0, false, s.actCounter, s.isActing⟩ (max N 1)
      = [true] := by
  refine ⟨psc_step_withdraw_gate cfg s want hg hs, ?_,
    (iterateSignal_activation cfg2 N s.actCounter s.isActing htol2 hg2).2⟩
  intro k hk1 hkmax
  obtain ⟨j, rfl⟩ : ∃ j, k = j + 1 := ⟨k - 1, by omega⟩
  exact signalCalls_below cfg2 N s.actCounter s.isActing htol2 hg2 j (by omega)

/-- Witness for C6: gate closed while signaled withdraws with one
`signal(false)`; re-opened with tolerance 2, the fresh accumulation fires at
cycle 2 and not at cycle 1. -/
theorem claim_C6_witness :
    processSignalChannel ⟨50, 2, 0, false, 2, 0, true⟩ ⟨4, true, 0, false⟩ true =
        (⟨0, false, 0, false⟩, [false])
  ∧ signalCallsInCycle ⟨50, 2, 0, true, 2, 0, true⟩ alwaysTrue ⟨0, false, 0, false⟩ 1 = []
  ∧ signalCallsInCycle ⟨50, 2, 0, true, 2, 0, true⟩ alwaysTrue ⟨0, false, 0, false⟩ 2
      = [true] := by
  have h := claim_C6_gate_withdrawal ⟨50, 2, 0, false, 2, 0, true⟩
    ⟨50, 2, 0, true, 2, 0, true⟩ ⟨4, true, 0, false⟩ true 2 rfl rfl rfl rfl
  exact ⟨h.1, h.2.1 1 (by decide) (by decide), h.2.2⟩

/-- C9: the flat-parameter overload of `updateTask` and the `TaskConfig`
overload agree: same return value and same resulting scheduler state (hence
the same task configuration); likewise for the two `updateConfig` overloads
of `TaskBase` underneath. -/
theorem claim_C9_update_overloads_agree (sch : Scheduler) (name : String)
    (t : TaskBase) (intervalMs sigTolerance sigRepeat : Int) (gS : Bool)
    (actTolerance actRepeat : Int) (gA : Bool) :
    sch.updateTaskFlat name intervalMs sigTolerance sigRepeat gS
        actTolerance actRepeat gA =
      sch.updateTask name ⟨intervalMs, sigTolerance, sigRepeat, gS,
        actTolerance, actRepeat, gA⟩
  ∧ t.updateConfigFlat intervalMs sigTolerance sigRepeat gS
        actTolerance actRepeat gA =
      t.updateConfig ⟨intervalMs, sigTolerance, sigRepeat, gS,
        actTolerance, actRepeat, gA⟩ := by
  exact ⟨rfl, rfl⟩

/-- C8: `createTask` fails without any state change when the name is taken or
the factory yields null; otherwise it returns true, the registry afterwards
maps `name` to the new task (count up by exactly one) and the task is
scheduled with deadline `now + intervalMs`. -/
theorem claim_C8_createTask (sch : Scheduler) (name : String)
    (factory : Option TaskBase) (now : Int) :
    (((sch.registry.lookup name).isSome ∨ factory = none) →
      sch.createTask name factory now = (false, sch))
  ∧ (∀ task : TaskBase, sch.registry.lookup name = none → factory = some task →
        (sch.createTask name factory now).1 = true
      ∧ (sch.createTask name factory now).2.registry.lookup name = some sch.store.length
      ∧ (sch.createTask name factory now).2.store[sch.store.length]? = some task
      ∧ (sch.createTask name factory now).2.registry.length = sch.registry.length + 1
      ∧ (now + task.config.intervalMs, sch.store.length) ∈
          (sch.createTask name factory now).2.timerQueue) := by
  constructor
  · intro h
    rcases h with h | h
    · simp [Scheduler.createTask, h]
    · subst h
      by_cases hl : (sch.registry.lookup name).isSome
      · simp [Scheduler.createTask, hl]
      · simp [Scheduler.createTask, hl]
  · intro task hl hf
    subst hf
    have hl2 : (sch.registry.lookup name).isSome = false := by simp [hl]
    simp only [Scheduler.createTask, hl2, Bool.false_eq_true, if_false]
    refine ⟨by trivial, ?_, ?_, ?_, ?_⟩
    · simp [Scheduler.scheduleTask, List.lookup]
    · simp only [Scheduler.scheduleTask]
      exact List.getElem?_concat_length sch.store task
    · simp [Scheduler.scheduleTask]
    · simp [Scheduler.scheduleTask, TaskBase.getInterval]

/-- Witness for C8: on a fresh scheduler, creating "A" succeeds and
registers it; creating "A" again returns false with the state unchanged. -/
theorem claim_C8_witness :
    (Scheduler.init.createTask "A" (some throwPlanTask) 5).1 = true
  ∧ (Scheduler.init.createTask "A" (some throwPlanTask) 5).2.registry.length = 1
  ∧ (Scheduler.init.createTask "A" (some throwPlanTask) 5).2.createTask "A"
        (some throwPlanTask) 7 =
      (false, (Scheduler.init.createTask "A" (some throwPlanTask) 5).2) := by
  have h1 := (claim_C8_createTask Scheduler.init "A" (some throwPlanTask) 5).2
    throwPlanTask rfl rfl
  have h2 := (claim_C8_createTask ((Scheduler.init.createTask "A" (some throwPlanTask) 5).2)
    "A" (some throwPlanTask) 7).1 (Or.inl (by rfl))
  exact ⟨h1.1, by simpa using h1.2.2.2.1, h2⟩

/-- C2, as stated, is false on the code: no public API consults `running_`
and `shutdown()` does not clear the registry, so after shutdown `createTask`
with a fresh name still returns true (and registers the task) and `stopTask`
of a registered name still returns true. -/
theorem claim_C2_counterexample :
    (Scheduler.init.shutdown.createTask "AfterShutdown" (some throwPlanTask) 0).1 = true
  ∧ ((Scheduler.init.createTask "A" (some throwPlanTask) 0).2.shutdown.stopTask "A").1
      = true := by
  exact ⟨rfl, rfl⟩

/-- C2 (amended): after shutdown the public API behaves exactly as before it
— none of `createTask` / `stopTask` / `updateTask` / `getTask` checks the
running flag, and the registry survives shutdown — so each call succeeds or
fails purely by registry contents (and none throws). -/
theorem claim_C2_amended (sch : Scheduler) (name : String) (task : TaskBase)
    (now : Int) (cfg : TaskConfig) :
    sch.shutdown.registry = sch.registry
  ∧ sch.shutdown.store = sch.store
  ∧ (sch.registry.lookup name = none →
        (sch.shutdown.createTask name (some task) now).1 = true
      ∧ sch.shutdown.getTask name = none
      ∧ (sch.shutdown.stopTask name).1 = false
      ∧ (sch.shutdown.updateTask name cfg).1 = false
      ∧ (sch.shutdown.createTask name none now).1 = false)
  ∧ ((sch.registry.lookup name).isSome →
        (sch.shutdown.stopTask name).1 = true
      ∧ (sch.shutdown.updateTask name cfg).1 = true
      ∧ (sch.shutdown.getTask name).isSome
      ∧ (sch.shutdown.createTask name (some task) now).1 = false) := by
  have hreg : sch.shutdown.registry = sch.registry := by
    simp only [Scheduler.shutdown]
    split <;> rfl
  have hstore : sch.shutdown.store = sch.store := by
    simp only [Scheduler.shutdown]
    split <;> rfl
  refine ⟨hreg, hstore, ?_, ?_⟩
  · intro h
    refine ⟨?_, ?_, ?_, ?_, ?_⟩
    · simp [Scheduler.createTask, hreg, h]
    · simp [Scheduler.getTask, hreg, h]
    · simp [Scheduler.stopTask, hreg, h]
    · simp [Scheduler.updateTask, hreg, h]
    · by_cases hl : (sch.registry.lookup name).isSome
      · simp [Scheduler.createTask, hreg, hl]
      · simp [Scheduler.createTask, hreg, hl]
  · intro h
    obtain ⟨id, hid⟩ := Option.isSome_iff_exists.mp h
    refine ⟨?_, ?_, ?_, ?_⟩
    · simp [Scheduler.stopTask, hreg, hid]
    · simp [Scheduler.updateTask, hreg, hid]
    · simp [Scheduler.getTask, hreg, hid]
    · simp [Scheduler.createTask, hreg, hid]

/-- Witness for the amended C2 at a concrete input. -/
theorem claim_C2_amended_witness :
    (Scheduler.init.shutdown.createTask "B" (some throwPlanTask) 3).1 = true
  ∧ Scheduler.init.shutdown.getTask "B" = none := by
  have h := (claim_C2_amended Scheduler.init "B" throwPlanTask 3
    ⟨50, 2, 0, true, 2, 0, true⟩).2.2.1 rfl
  exact ⟨h.1, h.2.1⟩

/-- Lemma: `modifyStore` preserves every per-task observation that its function
preserves. -/
theorem modifyStore_map_frame {α : Type} (f : TaskBase → TaskBase)
    (g : TaskBase → α) (hf : ∀ t, g (f t) = g t) :
    ∀ (l : List TaskBase) (id : Nat), (modifyStore f l id).map g = l.map g
  | [], _ => rfl
  | t :: ts, 0 => by simp [modifyStore, hf]
  | t :: ts, n + 1 => by
      simp only [modifyStore, List.map_cons]
      rw [modifyStore_map_frame f g hf ts n]

/-- C10: a configuration update replaces only the config struct — for every
task and every new configuration the runtime state-machine fields, name and
active flag survive unconditionally, both on the task object (either
overload) and through `Scheduler::updateTask` — and because a previously
accumulated debounce counter is retained, lowering the tolerance to (or
below) the current counter of an unsignaled task makes the very next
true-intent cycle activate. -/
theorem claim_C10_update_frame (t : TaskBase) (c : TaskConfig) (sch : Scheduler)
    (name : String) :
    ((t.updateConfig c).state = t.state
      ∧ (t.updateConfig c).name = t.name
      ∧ (t.updateConfig c).active = t.active
      ∧ (t.updateConfig c).config = c)
  ∧ (∀ (i st sr ta ra : Int) (gS gA : Bool),
        (t.updateConfigFlat i st sr gS ta ra gA).state = t.state
      ∧ (t.updateConfigFlat i st sr gS ta ra gA).name = t.name
      ∧ (t.updateConfigFlat i st sr gS ta ra gA).active = t.active)
  ∧ ((sch.updateTask name c).2.store.map (fun u => (u.name, u.active, u.state)) =
        sch.store.map (fun u => (u.name, u.active, u.state)))
  ∧ (t.state.isSignaled = false → c.allowSignal = true →
      c.sigTolerance ≤ t.state.sigCounter →
      processSignalChannel c (t.updateConfig c).state true =
        ({ t.state with sigCounter := t.state.sigCounter + 1, isSignaled := true },
          [true])) := by
  refine ⟨⟨rfl, rfl, rfl, rfl⟩, fun i st sr ta ra gS gA => ⟨rfl, rfl, rfl⟩, ?_, ?_⟩
  · rcases hl : sch.registry.lookup name with _ | id
    · simp [Scheduler.updateTask, hl]
    · simp only [Scheduler.updateTask, hl]
      exact modifyStore_map_frame (fun u => u.updateConfig c)
        (fun u => (u.name, u.active, u.state)) (fun u => rfl) sch.store id
  · intro hns hgS hlow
    show processSignalChannel c t.state true = _
    exact psc_step_activate c t.state hgS hns (by omega)

/-- Witness for C10: a task with counter 5 keeps its state across an update
that lowers the tolerance to 3, and its next true cycle activates. -/
theorem claim_C10_witness :
    ((TaskBase.mk "T" true ⟨50, 10, 0, true, 10, 0, true⟩ ⟨5, false, 0, false⟩).updateConfig
        ⟨50, 3, 0, true, 3, 0, true⟩).state = ⟨5, false, 0, false⟩
  ∧ processSignalChannel ⟨50, 3, 0, true, 3, 0, true⟩
      ((TaskBase.mk "T" true ⟨50, 10, 0, true, 10, 0, true⟩
          ⟨5, false, 0, false⟩).updateConfig ⟨50, 3, 0, true, 3, 0, true⟩).state true =
      (⟨6, true, 0, false⟩, [true]) := by
  have h := claim_C10_update_frame
    (TaskBase.mk "T" true ⟨50, 10, 0, true, 10, 0, true⟩ ⟨5, false, 0, false⟩)
    ⟨50, 3, 0, true, 3, 0, true⟩ Scheduler.init "T"
  exact ⟨h.1.1, h.2.2.2 rfl rfl (by decide)⟩

end TaskScheduler
